import Mathlib

/-!
Shallow embedding of `src/src/auth/authApp.js` (stacks.js authentication
response processor) and proofs about its specified behaviour.

The file under consideration is the single source file `authApp.js`.  Its
collaborators (`verifyAuthResponse`, `decodeToken`, `decryptPrivateKey`,
`hexStringToECPair`, `getAddressFromDID`, `extractProfile`, `fetch`,
`JSON.parse`) are imported from modules that are not part of the source;
they are modelled as an explicit environment of oracles (`Env`).  Exceptions
thrown by those collaborators are modelled as `Option`/`Except` results.
The mutable session store is modelled by explicit state passing: the
processor takes the current `SessionData` and returns the outcome together
with the final `SessionData`.
-/

set_option autoImplicit false

namespace AuthApp

/-- A minimal JSON value type, used for profile objects and for the result of
`JSON.parse` on a fetched profile body. -/
inductive Json where
  | null : Json
  | str : String → Json
  | num : Int → Json
  | bool : Bool → Json
  | arr : List Json → Json
  | obj : List (String × Json) → Json

/-- `DEFAULT_PROFILE` from `authApp.js` lines 22-25:
`{'@type': 'Person', '@context': 'http://schema.org'}`. -/
def DEFAULT_PROFILE : Json :=
  .obj [("@type", .str "Person"), ("@context", .str "http://schema.org")]

/-- Modelled from the spec: the fixed default gateway (gaia hub) URL constant
`BLOCKSTACK_DEFAULT_GAIA_HUB_URL`, imported from `./authConstants`, a module
that is not part of the source under consideration. -/
def BLOCKSTACK_DEFAULT_GAIA_HUB_URL : String := "https://hub.blockstack.org"

/-- Modelled from the spec: the fixed default core-node endpoint
`DEFAULT_CORE_NODE`, imported from `./authConstants`, a module that is not
part of the source under consideration. -/
def DEFAULT_CORE_NODE : String := "https://core.blockstack.org"

/-- Modelled from the spec: the fixed name-lookup path suffix
`NAME_LOOKUP_PATH`, imported from `./authConstants`, a module that is not
part of the source under consideration. -/
def NAME_LOOKUP_PATH : String := "/v1/names"

/-- The decoded claim payload of an authentication response token
(`decodeToken(authResponseToken).payload`).  A field that JavaScript would
hold as `null` or `undefined` is `none`; the source only ever tests those two
cases together on the fields modelled with `Option`. -/
structure TokenPayload where
  username : Option String
  profile : Option Json
  iss : String
  private_key : Option String
  core_token : Option String
  version : Option String
  hubUrl : Option String
  profile_url : Option String

/-- The output record assembled by `handlePendingSignInImpl`
(`authApp.js` lines 166-175). -/
structure UserData where
  username : Option String
  profile : Option Json
  decentralizedID : String
  identityAddress : String
  appPrivateKey : Option String
  coreSessionToken : Option String
  authResponseToken : String
  hubUrl : String

/-- The session record held by the session store: `transitKey`, `coreNode`
and `userData` are the three fields the source reads or writes. -/
structure SessionData where
  transitKey : Option String
  coreNode : Option String
  userData : Option UserData

/-- Errors the embedded operations can produce.  `loginFailed` and
`invalidState` model the source's `LoginFailedError` and `InvalidStateError`
with their message strings; `fetchError` models a rejection of the `fetch`
promise itself (unreachable host — the source installs no handler for it);
`parseError` models an exception thrown while turning a fetched body into a
profile (`JSON.parse`, the `[0].token` access, or `extractProfile`). -/
inductive AuthError where
  | loginFailed : String → AuthError
  | invalidState : String → AuthError
  | fetchError : AuthError
  | parseError : AuthError
deriving DecidableEq

/-- Outcome of `fetch(profileURL)`: the promise rejects (`networkError`),
or it resolves with `response.ok` false (`notOk`), or it resolves with a
successful response whose text body is given (`ok`). -/
inductive FetchOutcome where
  | networkError : FetchOutcome
  | notOk : FetchOutcome
  | ok : String → FetchOutcome

/-- The collaborators `authApp.js` imports from modules outside the source,
modelled as oracles.  A collaborator that can throw returns an `Option`
(`none` = it threw). -/
structure Env where
  /-- Result of `verifyAuthResponse(token, nameLookupURL)`. -/
  verify : String → String → Bool
  /-- `decodeToken(token).payload`; claims only concern verified tokens,
  which decode, so this is total. -/
  decodePayload : String → TokenPayload
  /-- `decryptPrivateKey(transitKey, ciphertext)`; `none` = it threw. -/
  decrypt : String → String → Option String
  /-- Whether `hexStringToECPair(s)` succeeds (`false` = it threw). -/
  parseECPair : String → Bool
  /-- `getAddressFromDID(iss)`. -/
  addressFromDID : String → String
  /-- Outcome of `fetch(profileURL)`. -/
  fetchResult : String → FetchOutcome
  /-- `JSON.parse(responseText)`; `none` = it threw. -/
  parseJson : String → Option Json
  /-- `extractProfile(token)`; `none` = it threw. -/
  extractProfile : String → Option Json

/-- Splits a list of characters on `.` separators. -/
def splitDots : List Char → List (List Char)
  | [] => [[]]
  | c :: rest =>
    if c = '.' then
      [] :: splitDots rest
    else
      match splitDots rest with
      | h :: t => (c :: h) :: t
      | [] => [[c]]

/-- Reads a version component as a decimal numeral; a component with a
non-digit character counts as `0`. -/
def compNat (cs : List Char) : Nat :=
  if cs.all (fun c => c.isDigit) then
    cs.foldl (fun acc c => acc * 10 + (c.toNat - 48)) 0
  else 0

/-- Modelled from the spec: parsing a semantic version string into a triple
(the comparison helper `isLaterVersion` lives in `../utils`, which is not
part of the source under consideration).  Missing components count as `0`. -/
def versionTriple (s : String) : Nat × Nat × Nat :=
  match (splitDots s.toList).map compNat with
  | a :: b :: c :: _ => (a, b, c)
  | [a, b] => (a, b, 0)
  | [a] => (a, 0, 0)
  | [] => (0, 0, 0)

/-- Strict lexicographic "later than" on version triples. -/
def tripleLater : Nat × Nat × Nat → Nat × Nat × Nat → Bool
  | (a1, b1, c1), (a2, b2, c2) =>
    Nat.blt a2 a1 || (a1 == a2 && (Nat.blt b2 b1 || (b1 == b2 && Nat.blt c2 c1)))

/-- Modelled from the spec: `isLaterVersion(v1, v2)` from `../utils`, which is
not part of the source under consideration.  The spec prescribes a
total-order comparison over semantic version triples, with an absent version
treated as the lowest possible version (hence never later than the gates
`1.1.0` and `1.2.0` used by the processor). -/
def isLaterVersion (v : Option String) (base : String) : Bool :=
  match v with
  | none => false
  | some s => tripleLater (versionTriple s) (versionTriple base)

/-- Message of the `LoginFailedError` thrown at `authApp.js` line 127. -/
def msgInvalidAuthResponse : String := "Invalid authentication response."

/-- Message of the `LoginFailedError` thrown at `authApp.js` lines 143-144. -/
def msgFailedDecryptKey : String :=
  "Failed decrypting appPrivateKey. Usually means that the transit key has changed during login."

/-- Message of the `LoginFailedError` thrown at `authApp.js` lines 156-157. -/
def msgMissingTransitKey : String :=
  "Authenticating with protocol > 1.1.0 requires transit key, and none found."

/-- Message of the `InvalidStateError` thrown at `authApp.js` line 221. -/
def msgNoUserData : String := "No user data found. Did the user sign in?"

/-- `authApp.js` lines 115-122: resolve the core node (session override if
truthy, else the default) and append the name-lookup path. -/
def nameLookupURL (sd : SessionData) : String :=
  let coreNode :=
    match sd.coreNode with
    | some v => if v = "" then DEFAULT_CORE_NODE else v
    | none => DEFAULT_CORE_NODE
  coreNode ++ NAME_LOOKUP_PATH

/-- `authApp.js` lines 135-147: resolve `appPrivateKey` when the version gate
is open and a transit key `tk` is present.  Try `decryptPrivateKey`; if it
throws, try `hexStringToECPair` on the raw value and keep the raw value if
that succeeds; otherwise fail with `LoginFailedError`. -/
def resolvePrivateKey (env : Env) (tk : String) (p : TokenPayload) :
    Except AuthError (Option String) :=
  match p.private_key with
  | none => .ok none
  | some pk =>
    match env.decrypt tk pk with
    | some d => .ok (some d)
    | none =>
      if env.parseECPair pk then .ok (some pk)
      else .error (.loginFailed msgFailedDecryptKey)

/-- `authApp.js` lines 148-154: resolve `coreSessionToken` when the version
gate is open and a transit key `tk` is present.  Try `decryptPrivateKey`; if
it throws, keep the raw value. -/
def resolveCoreToken (env : Env) (tk : String) (p : TokenPayload) : Option String :=
  match p.core_token with
  | none => none
  | some ct =>
    match env.decrypt tk ct with
    | some d => some d
    | none => some ct

/-- `authApp.js` lines 131-159: the version gate.  Produces the resolved
`(appPrivateKey, coreSessionToken)` pair, or the fatal `LoginFailedError`
when the protocol is later than `1.1.0` and no transit key is held. -/
def resolveKeys (env : Env) (transitKey : Option String) (p : TokenPayload) :
    Except AuthError (Option String × Option String) :=
  if isLaterVersion p.version "1.1.0" then
    match transitKey with
    | some tk =>
      match resolvePrivateKey env tk p with
      | .error e => .error e
      | .ok apk => .ok (apk, resolveCoreToken env tk p)
    | none => .error (.loginFailed msgMissingTransitKey)
  else
    .ok (p.private_key, p.core_token)

/-- `authApp.js` lines 160-164: hub URL selection. -/
def resolveHubUrl (p : TokenPayload) : String :=
  match p.hubUrl with
  | some h => if isLaterVersion p.version "1.2.0" then h else BLOCKSTACK_DEFAULT_GAIA_HUB_URL
  | none => BLOCKSTACK_DEFAULT_GAIA_HUB_URL

/-- `wrappedProfile[0].token` on the result of `JSON.parse` (`authApp.js`
line 191): only a non-empty array whose first element is an object carrying a
string `token` field yields a token; on every other shape the JavaScript
property chain throws or hands `extractProfile` an unusable value, folded
into `none` here. -/
def firstToken : Json → Option String
  | .arr (first :: _) =>
    match first with
    | .obj fields =>
      match fields.lookup "token" with
      | some (.str s) => some s
      | _ => none
    | _ => none
  | _ => none

/-- `authApp.js` lines 189-191: turn a successful response body into a
profile: `JSON.parse`, then `wrappedProfile[0].token`, then
`extractProfile`.  `none` = some step of the chain threw. -/
def profileFromBody (env : Env) (body : String) : Option Json :=
  match env.parseJson body with
  | none => none
  | some j =>
    match firstToken j with
    | none => none
    | some tok => env.extractProfile tok

/-- `authApp.js` lines 166-175: the `userData` record literal, built from the
decoded payload and the resolved keys. -/
def assembleUserData (env : Env) (authResponseToken : String) (p : TokenPayload)
    (appPrivateKey coreSessionToken : Option String) : UserData :=
  { username := p.username
    profile := p.profile
    decentralizedID := p.iss
    identityAddress := env.addressFromDID p.iss
    appPrivateKey := appPrivateKey
    coreSessionToken := coreSessionToken
    authResponseToken := authResponseToken
    hubUrl := resolveHubUrl p }

/-- `authApp.js` lines 111-209, `handlePendingSignInImpl` (the operation the
spec names `processSignInResponse`): verify the token, decode its payload,
run the version-gated key resolution, select the hub URL, assemble
`UserData`, resolve the profile (embedded, fetched, or default) and commit
the result to the session.  Returns the promise outcome together with the
final session data. -/
def handlePendingSignInImpl (env : Env) (sd : SessionData) (authResponseToken : String) :
    Except AuthError UserData × SessionData :=
  if !(env.verify authResponseToken (nameLookupURL sd)) then
    (.error (.loginFailed msgInvalidAuthResponse), sd)
  else
    let tokenPayload := env.decodePayload authResponseToken
    match resolveKeys env sd.transitKey tokenPayload with
    | .error e => (.error e, sd)
    | .ok (appPrivateKey, coreSessionToken) =>
      let userData := assembleUserData env authResponseToken tokenPayload
        appPrivateKey coreSessionToken
      match tokenPayload.profile, tokenPayload.profile_url with
      | none, some profileURL =>
        (match env.fetchResult profileURL with
         | .networkError => (.error .fetchError, sd)
         | .notOk =>
           let ud := { userData with profile := some DEFAULT_PROFILE }
           (.ok ud, { sd with userData := some ud })
         | .ok body =>
           match profileFromBody env body with
           | none => (.error .parseError, sd)
           | some prof =>
             let ud := { userData with profile := some prof }
             (.ok ud, { sd with userData := some ud }))
      | _, _ =>
        let ud := { userData with profile := tokenPayload.profile }
        (.ok ud, { sd with userData := some ud })

/-- The pipeline's promise outcome, separated from the session commit: the
same control flow as `handlePendingSignInImpl`, returning only the resolved
value or error.  `handle_eq_stage` proves the two presentations agree. -/
def processOutcome (env : Env) (transitKey : Option String) (lookupURL : String)
    (tok : String) : Except AuthError UserData :=
  if !(env.verify tok lookupURL) then
    .error (.loginFailed msgInvalidAuthResponse)
  else
    let p := env.decodePayload tok
    match resolveKeys env transitKey p with
    | .error e => .error e
    | .ok (appPrivateKey, coreSessionToken) =>
      let userData := assembleUserData env tok p appPrivateKey coreSessionToken
      match p.profile, p.profile_url with
      | none, some profileURL =>
        (match env.fetchResult profileURL with
         | .networkError => .error .fetchError
         | .notOk => .ok { userData with profile := some DEFAULT_PROFILE }
         | .ok body =>
           match profileFromBody env body with
           | none => .error .parseError
           | some prof => .ok { userData with profile := some prof })
      | _, _ => .ok { userData with profile := p.profile }

/-- `authApp.js` lines 218-224, `loadUserDataImpl` (the operation the spec
names `getCurrentUser`): a pure read of the committed `userData`. -/
def loadUserDataImpl (sd : SessionData) : Except AuthError UserData :=
  match sd.userData with
  | none => .error (.invalidState msgNoUserData)
  | some ud => .ok ud

/-! ### Concrete fixtures

Small concrete sessions, payloads and environments used to exhibit runs of
the pipeline. -/

/-- A session holding neither transit key, core-node override nor user data. -/
def baseSession : SessionData :=
  { transitKey := none, coreNode := none, userData := none }

/-- `baseSession` with a transit key. -/
def sessionTk : SessionData := { baseSession with transitKey := some "tk" }

/-- A legacy payload (no version) with an embedded profile. -/
def basePayload : TokenPayload :=
  { username := some "alice.id"
    profile := some (.obj [])
    iss := "did:btc-addr:1abc"
    private_key := some "pk"
    core_token := some "ct"
    version := none
    hubUrl := none
    profile_url := none }

/-- `basePayload` under protocol version `1.2.0`. -/
def payloadV12 : TokenPayload := { basePayload with version := some "1.2.0" }

/-- `basePayload` under version `1.3.0` with a custom hub URL. -/
def payloadHub : TokenPayload :=
  { basePayload with version := some "1.3.0", hubUrl := some "https://custom.hub" }

/-- `basePayload` under version `1.0.0` with the same custom hub URL. -/
def payloadOldHub : TokenPayload :=
  { basePayload with version := some "1.0.0", hubUrl := some "https://custom.hub" }

/-- `basePayload` with no embedded profile and an external profile URL. -/
def payloadNoProfile : TokenPayload :=
  { basePayload with profile := none, profile_url := some "https://profiles.example/alice.json" }

/-- An environment whose verifier accepts, decoding every token to
`basePayload`; decryption always throws, raw keys parse, the profile fetch
resolves with a non-success response. -/
def baseEnv : Env :=
  { verify := fun _ _ => true
    decodePayload := fun _ => basePayload
    decrypt := fun _ _ => none
    parseECPair := fun _ => true
    addressFromDID := fun s => s
    fetchResult := fun _ => .notOk
    parseJson := fun _ => none
    extractProfile := fun _ => none }

/-- `baseEnv` with a verifier that rejects every token. -/
def envInvalid : Env := { baseEnv with verify := fun _ _ => false }

/-- `baseEnv` decoding to the version-`1.2.0` payload. -/
def envV12 : Env := { baseEnv with decodePayload := fun _ => payloadV12 }

/-- `envV12` where the raw private key also fails to parse as key material. -/
def envBadKey : Env := { envV12 with parseECPair := fun _ => false }

/-- `baseEnv` decoding to the custom-hub payload. -/
def envHub : Env := { baseEnv with decodePayload := fun _ => payloadHub }

/-- `baseEnv` decoding to the version-`1.0.0` custom-hub payload. -/
def envOldHub : Env := { baseEnv with decodePayload := fun _ => payloadOldHub }

/-- `baseEnv` decoding to the profile-URL payload, with an unreachable
profile host: the fetch promise rejects. -/
def envNet : Env :=
  { baseEnv with decodePayload := fun _ => payloadNoProfile
                 fetchResult := fun _ => .networkError }

/-- `baseEnv` decoding to the profile-URL payload; the fetch resolves with a
non-success response. -/
def envNotOk : Env := { baseEnv with decodePayload := fun _ => payloadNoProfile }

/-- `baseEnv` decoding to the profile-URL payload; the fetch succeeds but the
body parses to an empty JSON array. -/
def envBadBody : Env :=
  { baseEnv with decodePayload := fun _ => payloadNoProfile
                 fetchResult := fun _ => .ok "[]"
                 parseJson := fun _ => some (.arr []) }

/-- The user data committed by a run of `baseEnv` over `baseSession`. -/
def udBase : UserData :=
  { username := some "alice.id"
    profile := some (.obj [])
    decentralizedID := "did:btc-addr:1abc"
    identityAddress := "did:btc-addr:1abc"
    appPrivateKey := some "pk"
    coreSessionToken := some "ct"
    authResponseToken := "t"
    hubUrl := BLOCKSTACK_DEFAULT_GAIA_HUB_URL }

/-- The user data committed by a run of `envHub` over `sessionTk`. -/
def udHub : UserData := { udBase with hubUrl := "https://custom.hub" }

/-- The user data committed by a run of `envNotOk` over `baseSession`: the
fixed default profile is substituted. -/
def udDefaultProfile : UserData := { udBase with profile := some DEFAULT_PROFILE }

/-! ### Structural lemmas about the pipeline -/

/-- `handlePendingSignInImpl` is `processOutcome` followed by the commit:
an error leaves the session untouched, a success writes exactly the
resolved `UserData` into the `userData` field. -/
theorem handle_eq_stage (env : Env) (sd : SessionData) (tok : String) :
    handlePendingSignInImpl env sd tok =
      match processOutcome env sd.transitKey (nameLookupURL sd) tok with
      | .error e => (.error e, sd)
      | .ok ud => (.ok ud, { sd with userData := some ud }) := by
  unfold handlePendingSignInImpl processOutcome
  cases hb : env.verify tok (nameLookupURL sd)
  · rfl
  · simp only [Bool.not_true, Bool.false_eq_true, if_false]
    cases hk : resolveKeys env sd.transitKey (env.decodePayload tok) with
    | error e => rfl
    | ok ks =>
      obtain ⟨apk, cst⟩ := ks
      cases hp : (env.decodePayload tok).profile with
      | some prof => simp [hp]
      | none =>
        cases hu : (env.decodePayload tok).profile_url with
        | none => simp [hp, hu]
        | some url =>
          cases hf : env.fetchResult url with
          | networkError => simp [hp, hu, hf]
          | notOk => simp [hp, hu, hf]
          | ok body =>
            cases hpb : profileFromBody env body <;> simp [hp, hu, hf, hpb]

/-- Inversion: a successful outcome passed verification, its keys came from
`resolveKeys`, and the returned record is the assembled `UserData` with some
profile substituted. -/
theorem processOutcome_ok_shape (env : Env) (tk : Option String) (url tok : String)
    (ud : UserData) (h : processOutcome env tk url tok = .ok ud) :
    env.verify tok url = true ∧
    ∃ apk cst prof, resolveKeys env tk (env.decodePayload tok) = .ok (apk, cst) ∧
      ud = { assembleUserData env tok (env.decodePayload tok) apk cst with profile := prof } := by
  unfold processOutcome at h
  cases hb : env.verify tok url
  · rw [hb] at h
    simp at h
  · rw [hb] at h
    simp only [Bool.not_true, Bool.false_eq_true, if_false] at h
    refine ⟨rfl, ?_⟩
    cases hk : resolveKeys env tk (env.decodePayload tok) with
    | error e =>
      rw [hk] at h
      simp at h
    | ok ks =>
      obtain ⟨apk, cst⟩ := ks
      rw [hk] at h
      refine ⟨apk, cst, ?_⟩
      cases hp : (env.decodePayload tok).profile with
      | some prof =>
        simp only [hp] at h
        exact ⟨some prof, rfl, by simpa [hp] using h.symm⟩
      | none =>
        cases hu : (env.decodePayload tok).profile_url with
        | none =>
          simp only [hp, hu] at h
          exact ⟨none, rfl, by simpa [hp] using h.symm⟩
        | some u =>
          simp only [hp, hu] at h
          cases hf : env.fetchResult u with
          | networkError => simp [hf] at h
          | notOk =>
            simp only [hf, Except.ok.injEq] at h
            exact ⟨some DEFAULT_PROFILE, rfl, h.symm⟩
          | ok body =>
            simp only [hf] at h
            cases hpb : profileFromBody env body with
            | none => simp [hpb] at h
            | some prof =>
              simp only [hpb, Except.ok.injEq] at h
              exact ⟨some prof, rfl, h.symm⟩

/-- When the version gate is closed, the outcome ignores the transit key and
the two decryption oracles entirely: no decryption can influence the run. -/
theorem processOutcome_legacy_const (env : Env) (d : String → String → Option String)
    (q : String → Bool) (tkA tkB : Option String) (url tok : String)
    (hver : isLaterVersion (env.decodePayload tok).version "1.1.0" = false) :
    processOutcome { env with decrypt := d, parseECPair := q } tkA url tok =
      processOutcome env tkB url tok := by
  unfold processOutcome resolveKeys
  simp only [profileFromBody]
  rw [hver]
  simp [assembleUserData]

/-- When verification passes and the version gate fails, the processor
rejects with the gate's error and leaves the session unchanged. -/
theorem handle_keys_error (env : Env) (sd : SessionData) (tok : String) (e : AuthError)
    (hv : env.verify tok (nameLookupURL sd) = true)
    (hk : resolveKeys env sd.transitKey (env.decodePayload tok) = .error e) :
    handlePendingSignInImpl env sd tok = (.error e, sd) := by
  simp [handlePendingSignInImpl, hv, hk]

/-- The fields of any resolved `UserData` trace back to `resolveKeys` and
`resolveHubUrl` on the decoded payload. -/
theorem handle_ok_fields (env : Env) (sd : SessionData) (tok : String) (ud : UserData)
    (h : (handlePendingSignInImpl env sd tok).1 = .ok ud) :
    ∃ apk cst prof,
      resolveKeys env sd.transitKey (env.decodePayload tok) = .ok (apk, cst) ∧
      ud.appPrivateKey = apk ∧ ud.coreSessionToken = cst ∧
      ud.hubUrl = resolveHubUrl (env.decodePayload tok) ∧
      ud.username = (env.decodePayload tok).username ∧
      ud.authResponseToken = tok ∧ ud.profile = prof := by
  rw [handle_eq_stage] at h
  cases hpo : processOutcome env sd.transitKey (nameLookupURL sd) tok with
  | error e =>
    rw [hpo] at h
    simp at h
  | ok u =>
    rw [hpo] at h
    simp only [Except.ok.injEq] at h
    subst h
    obtain ⟨-, apk, cst, prof, hk, hud⟩ :=
      processOutcome_ok_shape env sd.transitKey (nameLookupURL sd) tok u hpo
    subst hud
    exact ⟨apk, cst, prof, hk, rfl, rfl, rfl, rfl, rfl, rfl⟩

/-! ### Claims -/

/-- C1: for every response token for which the token verifier returns false,
the processor rejects with `LoginFailedError` carrying the message
"Invalid authentication response." and the session data is returned
unchanged — no `userData` is committed. -/
theorem C1_unverified_rejects (env : Env) (sd : SessionData) (tok : String)
    (hv : env.verify tok (nameLookupURL sd) = false) :
    handlePendingSignInImpl env sd tok =
      (.error (.loginFailed msgInvalidAuthResponse), sd) := by
  simp [handlePendingSignInImpl, hv]

/-- C1 witness: a concrete run with a rejecting verifier. -/
theorem C1_unverified_rejects_witness :
    handlePendingSignInImpl envInvalid baseSession "t" =
      (.error (.loginFailed msgInvalidAuthResponse), baseSession) :=
  C1_unverified_rejects envInvalid baseSession "t" rfl

/-- C2: in every run the only session field ever written is `userData` —
`transitKey` and `coreNode` are returned unchanged; every rejecting run
leaves the session exactly as it was (in particular whenever the verifier
said false), and a resolving run writes exactly the returned `UserData`. -/
theorem C2_only_userData_committed (env : Env) (sd : SessionData) (tok : String) :
    (handlePendingSignInImpl env sd tok).2.transitKey = sd.transitKey ∧
    (handlePendingSignInImpl env sd tok).2.coreNode = sd.coreNode ∧
    (∀ e, (handlePendingSignInImpl env sd tok).1 = .error e →
      (handlePendingSignInImpl env sd tok).2 = sd) ∧
    (∀ ud, (handlePendingSignInImpl env sd tok).1 = .ok ud →
      (handlePendingSignInImpl env sd tok).2 = { sd with userData := some ud }) ∧
    (env.verify tok (nameLookupURL sd) = false →
      (handlePendingSignInImpl env sd tok).2 = sd) := by
  rw [handle_eq_stage]
  cases hpo : processOutcome env sd.transitKey (nameLookupURL sd) tok with
  | error e =>
    exact ⟨rfl, rfl, fun _ _ => rfl, fun ud h => by simp at h, fun _ => rfl⟩
  | ok u =>
    refine ⟨rfl, rfl, fun e h => by simp at h, fun ud h => ?_, fun hv => ?_⟩
    · simp only [Except.ok.injEq] at h
      rw [h]
    · exact absurd (processOutcome_ok_shape env sd.transitKey (nameLookupURL sd) tok u hpo).1
        (by rw [hv]; simp)

/-- C2 witness: a concrete resolving run writes exactly the returned record. -/
theorem C2_only_userData_committed_witness :
    (handlePendingSignInImpl baseEnv baseSession "t").2 =
      { baseSession with userData := some udBase } :=
  (C2_only_userData_committed baseEnv baseSession "t").2.2.2.1 udBase rfl

/-- C5: for every verified token whose version is later than `1.1.0`, if the
session holds no transit key the processor rejects with `LoginFailedError`
("Authenticating with protocol > 1.1.0 requires transit key, and none
found.") and the session is unchanged — no commit occurs. -/
theorem C5_missing_transit_key_rejects (env : Env) (sd : SessionData) (tok : String)
    (p : TokenPayload)
    (hv : env.verify tok (nameLookupURL sd) = true)
    (hd : env.decodePayload tok = p)
    (hver : isLaterVersion p.version "1.1.0" = true)
    (htk : sd.transitKey = none) :
    handlePendingSignInImpl env sd tok =
      (.error (.loginFailed msgMissingTransitKey), sd) := by
  have hk : resolveKeys env sd.transitKey (env.decodePayload tok) =
      .error (.loginFailed msgMissingTransitKey) := by
    rw [hd, htk]
    unfold resolveKeys
    rw [hver]
    rfl
  simp [handlePendingSignInImpl, hv, hk]

/-- C5 witness: a concrete version-`1.2.0` run with no transit key. -/
theorem C5_missing_transit_key_rejects_witness :
    handlePendingSignInImpl envV12 baseSession "t" =
      (.error (.loginFailed msgMissingTransitKey), baseSession) :=
  C5_missing_transit_key_rejects envV12 baseSession "t" payloadV12 rfl rfl (by decide) rfl

/-- C3 counterexample: the claim asserts that an unreachable profile host
(the fetch promise rejecting) is absorbed into the default profile, but on a
concrete verified token with a null profile and an unreachable `profile_url`
the pipeline rejects — the source installs no handler on the fetch promise —
and nothing is committed. -/
theorem C3_counterexample_unreachable_host :
    handlePendingSignInImpl envNet baseSession "t" = (.error .fetchError, baseSession) ∧
    (handlePendingSignInImpl envNet baseSession "t").2.userData = none :=
  ⟨rfl, rfl⟩

/-- C3 (amended): for every verified token whose profile is null or absent
and whose `profile_url` is present, a fetch that resolves with a non-success
response is non-fatal: the pipeline commits and resolves with `UserData`
whose profile is the fixed default `{"@type":"Person",
"@context":"http://schema.org"}`; a fetch whose promise itself rejects
(unreachable host) instead rejects the whole pipeline with no commit. -/
theorem C3_amended_profile_fetch (env : Env) (sd : SessionData) (tok : String)
    (p : TokenPayload) (apk cst : Option String) (url : String)
    (hv : env.verify tok (nameLookupURL sd) = true)
    (hd : env.decodePayload tok = p)
    (hk : resolveKeys env sd.transitKey p = .ok (apk, cst))
    (hp : p.profile = none)
    (hu : p.profile_url = some url) :
    (env.fetchResult url = .notOk →
      handlePendingSignInImpl env sd tok =
        (.ok ({ assembleUserData env tok p apk cst with profile := some DEFAULT_PROFILE }),
         { sd with userData := some ({ assembleUserData env tok p apk cst with profile := some DEFAULT_PROFILE }) })) ∧
    (env.fetchResult url = .networkError →
      handlePendingSignInImpl env sd tok = (.error .fetchError, sd)) := by
  constructor <;> intro hf <;> simp [handlePendingSignInImpl, hv, hd, hk, hp, hu, hf]

/-- C3 (amended) witness: a concrete non-success fetch commits the default
profile. -/
theorem C3_amended_profile_fetch_witness :
    handlePendingSignInImpl envNotOk baseSession "t" =
      (.ok udDefaultProfile, { baseSession with userData := some udDefaultProfile }) ∧
    udDefaultProfile.profile = some DEFAULT_PROFILE :=
  ⟨(C3_amended_profile_fetch envNotOk baseSession "t" payloadNoProfile
      (some "pk") (some "ct") "https://profiles.example/alice.json"
      rfl rfl rfl rfl rfl).1 rfl,
   rfl⟩

/-- C4: for every verified token with version later than `1.1.0`, a transit
key present and a non-null `private_key`: decryption with the transit key is
attempted first; on decryption failure the raw value is parsed as
unencrypted key material and, if it parses, used as `appPrivateKey`; only if
that second parse also fails does the pipeline reject, with a
`LoginFailedError` whose message is distinct from the other failure
messages. -/
theorem C4_private_key_decrypt_fallback (env : Env) (sd : SessionData) (tok : String)
    (p : TokenPayload) (tk pk : String)
    (hv : env.verify tok (nameLookupURL sd) = true)
    (hd : env.decodePayload tok = p)
    (hver : isLaterVersion p.version "1.1.0" = true)
    (htk : sd.transitKey = some tk)
    (hpk : p.private_key = some pk) :
    (∀ d, env.decrypt tk pk = some d → resolvePrivateKey env tk p = .ok (some d)) ∧
    (env.decrypt tk pk = none → env.parseECPair pk = true →
      resolvePrivateKey env tk p = .ok (some pk) ∧
      ∀ ud, (handlePendingSignInImpl env sd tok).1 = .ok ud →
        ud.appPrivateKey = some pk) ∧
    (env.decrypt tk pk = none → env.parseECPair pk = false →
      handlePendingSignInImpl env sd tok =
        (.error (.loginFailed msgFailedDecryptKey), sd)) ∧
    msgFailedDecryptKey ≠ msgInvalidAuthResponse ∧
    msgFailedDecryptKey ≠ msgMissingTransitKey := by
  refine ⟨fun d hdec => ?_, fun hdec hec => ⟨?_, fun ud h => ?_⟩, fun hdec hec => ?_,
    by decide, by decide⟩
  · simp [resolvePrivateKey, hpk, hdec]
  · simp [resolvePrivateKey, hpk, hdec, hec]
  · obtain ⟨apk, cst, prof, hk, ha, -, -, -, -, -⟩ := handle_ok_fields env sd tok ud h
    rw [hd, htk] at hk
    have hrp : resolvePrivateKey env tk p = .ok (some pk) := by
      simp [resolvePrivateKey, hpk, hdec, hec]
    rw [show resolveKeys env (some tk) p = .ok (some pk, resolveCoreToken env tk p) by
      simp [resolveKeys, hver, hrp]] at hk
    simp only [Except.ok.injEq, Prod.mk.injEq] at hk
    rw [ha, ← hk.1]
  · have hrp : resolvePrivateKey env tk p = .error (.loginFailed msgFailedDecryptKey) := by
      simp [resolvePrivateKey, hpk, hdec, hec]
    apply handle_keys_error env sd tok _ hv
    rw [hd, htk]
    simp [resolveKeys, hver, hrp]

/-- C4 witness: a concrete version-`1.2.0` run where decryption fails and the
raw value does not parse either: the distinct fatal error is raised. -/
theorem C4_private_key_decrypt_fallback_witness :
    handlePendingSignInImpl envBadKey sessionTk "t" =
      (.error (.loginFailed msgFailedDecryptKey), sessionTk) :=
  (C4_private_key_decrypt_fallback envBadKey sessionTk "t" payloadV12 "tk" "pk"
    rfl rfl (by decide) rfl rfl).2.2.1 rfl rfl

/-- C6: for every verified token whose version is absent or not later than
`1.1.0`, the committed `appPrivateKey` and `coreSessionToken` equal the
payload's `private_key` and `core_token` unmodified, and the outcome is
independent of the decryption oracles and of the transit key held by the
session — no decryption is attempted. -/
theorem C6_legacy_passthrough (env : Env) (sd : SessionData) (tok : String)
    (p : TokenPayload)
    (hd : env.decodePayload tok = p)
    (hver : isLaterVersion p.version "1.1.0" = false) :
    (∀ ud, (handlePendingSignInImpl env sd tok).1 = .ok ud →
      ud.appPrivateKey = p.private_key ∧ ud.coreSessionToken = p.core_token) ∧
    (∀ (d : String → String → Option String) (q : String → Bool) (tk2 : Option String),
      (handlePendingSignInImpl { env with decrypt := d, parseECPair := q }
        { sd with transitKey := tk2 } tok).1 =
      (handlePendingSignInImpl env sd tok).1) := by
  constructor
  · intro ud h
    obtain ⟨apk, cst, prof, hk, ha, hc, -, -, -, -⟩ := handle_ok_fields env sd tok ud h
    rw [hd] at hk
    unfold resolveKeys at hk
    rw [hver] at hk
    simp only [Bool.false_eq_true, if_false, Except.ok.injEq, Prod.mk.injEq] at hk
    exact ⟨ha.trans hk.1.symm, hc.trans hk.2.symm⟩
  · intro d q tk2
    rw [handle_eq_stage, handle_eq_stage]
    have hn : nameLookupURL { sd with transitKey := tk2 } = nameLookupURL sd := rfl
    have hpo := processOutcome_legacy_const env d q
      ({ sd with transitKey := tk2 }).transitKey sd.transitKey (nameLookupURL sd) tok
      (by rw [hd]; exact hver)
    rw [hn, hpo]
    cases processOutcome env sd.transitKey (nameLookupURL sd) tok <;> rfl

/-- C6 witness: a concrete legacy run passes both secrets through. -/
theorem C6_legacy_passthrough_witness :
    udBase.appPrivateKey = basePayload.private_key ∧
    udBase.coreSessionToken = basePayload.core_token :=
  (C6_legacy_passthrough baseEnv baseSession "t" basePayload rfl rfl).1 udBase rfl

/-- C7: for every verified token with version later than `1.1.0`, a transit
key present and a non-null `core_token`, a failure to decrypt `core_token`
is non-fatal: the version gate still succeeds and the committed
`coreSessionToken` equals the raw `core_token` value from the payload. -/
theorem C7_core_token_decrypt_nonfatal (env : Env) (sd : SessionData) (tok : String)
    (p : TokenPayload) (tk ct : String) (apk : Option String)
    (hd : env.decodePayload tok = p)
    (hver : isLaterVersion p.version "1.1.0" = true)
    (htk : sd.transitKey = some tk)
    (hct : p.core_token = some ct)
    (hdec : env.decrypt tk ct = none)
    (hpk : resolvePrivateKey env tk p = .ok apk) :
    resolveKeys env sd.transitKey p = .ok (apk, some ct) ∧
    (∀ ud, (handlePendingSignInImpl env sd tok).1 = .ok ud →
      ud.coreSessionToken = some ct) := by
  have hco : resolveCoreToken env tk p = some ct := by
    simp [resolveCoreToken, hct, hdec]
  have hk : resolveKeys env sd.transitKey p = .ok (apk, some ct) := by
    rw [htk]
    simp [resolveKeys, hver, hpk, hco]
  refine ⟨hk, fun ud h => ?_⟩
  obtain ⟨apk2, cst2, prof, hk2, -, hc, -, -, -, -⟩ := handle_ok_fields env sd tok ud h
  rw [hd, hk] at hk2
  simp only [Except.ok.injEq, Prod.mk.injEq] at hk2
  rw [hc, ← hk2.2]

/-- C7 witness: a concrete version-`1.2.0` run where `core_token` fails to
decrypt commits the raw value without rejecting. -/
theorem C7_core_token_decrypt_nonfatal_witness :
    resolveKeys envV12 sessionTk.transitKey payloadV12 = .ok (some "pk", some "ct") ∧
    udBase.coreSessionToken = some "ct" :=
  ⟨(C7_core_token_decrypt_nonfatal envV12 sessionTk "t" payloadV12 "tk" "ct" (some "pk")
      rfl (by decide) rfl rfl rfl rfl).1,
   (C7_core_token_decrypt_nonfatal envV12 sessionTk "t" payloadV12 "tk" "ct" (some "pk")
      rfl (by decide) rfl rfl rfl rfl).2 udBase rfl⟩

/-- C8: the committed `hubUrl` equals the payload's `hubUrl` exactly when the
payload version is later than `1.2.0` and `hubUrl` is non-null; in every
other case it equals the fixed default gateway URL. -/
theorem C8_hub_url_selection (env : Env) (sd : SessionData) (tok : String)
    (p : TokenPayload)
    (hd : env.decodePayload tok = p) :
    (∀ u, isLaterVersion p.version "1.2.0" = true → p.hubUrl = some u →
      ∀ ud, (handlePendingSignInImpl env sd tok).1 = .ok ud → ud.hubUrl = u) ∧
    ((isLaterVersion p.version "1.2.0" = false ∨ p.hubUrl = none) →
      ∀ ud, (handlePendingSignInImpl env sd tok).1 = .ok ud →
        ud.hubUrl = BLOCKSTACK_DEFAULT_GAIA_HUB_URL) := by
  constructor
  · intro u hver hu ud h
    obtain ⟨-, -, -, -, -, -, hh, -, -, -⟩ := handle_ok_fields env sd tok ud h
    rw [hh, hd]
    simp [resolveHubUrl, hu, hver]
  · intro hcase ud h
    obtain ⟨-, -, -, -, -, -, hh, -, -, -⟩ := handle_ok_fields env sd tok ud h
    rw [hh, hd]
    rcases hcase with hver | hu
    · cases hu : p.hubUrl <;> simp [resolveHubUrl, hu, hver]
    · simp [resolveHubUrl, hu]

/-- C8 witness: version `1.3.0` with a custom hub commits the custom URL; an
earlier version with the same field present commits the default. -/
theorem C8_hub_url_selection_witness :
    udHub.hubUrl = "https://custom.hub" ∧
    udBase.hubUrl = BLOCKSTACK_DEFAULT_GAIA_HUB_URL :=
  ⟨(C8_hub_url_selection envHub sessionTk "t" payloadHub rfl).1 "https://custom.hub"
      (by decide) rfl udHub rfl,
   (C8_hub_url_selection envOldHub baseSession "t" payloadOldHub rfl).2
      (Or.inl (by decide)) udBase rfl⟩

/-- C9: when the profile fetch returns a success response whose body does not
parse as a JSON array whose first element carries a usable `token` field
(for example non-JSON text, or an empty array), the pipeline rejects: the
failure is not absorbed into the default profile, the rejection is not a
`LoginFailedError`, and no `userData` is committed. -/
theorem C9_malformed_profile_body_rejects (env : Env) (sd : SessionData) (tok : String)
    (p : TokenPayload) (apk cst : Option String) (url body : String)
    (hv : env.verify tok (nameLookupURL sd) = true)
    (hd : env.decodePayload tok = p)
    (hk : resolveKeys env sd.transitKey p = .ok (apk, cst))
    (hp : p.profile = none)
    (hu : p.profile_url = some url)
    (hf : env.fetchResult url = .ok body)
    (hb : profileFromBody env body = none) :
    handlePendingSignInImpl env sd tok = (.error .parseError, sd) ∧
    (∀ m, (AuthError.parseError : AuthError) ≠ .loginFailed m) ∧
    (handlePendingSignInImpl env sd tok).2.userData = sd.userData := by
  have h1 : handlePendingSignInImpl env sd tok = (.error .parseError, sd) := by
    simp [handlePendingSignInImpl, hv, hd, hk, hp, hu, hf, hb]
  refine ⟨h1, fun m => by simp, by rw [h1]⟩

/-- C9 witness: a success response whose body parses to an empty JSON array
rejects the pipeline without committing. -/
theorem C9_malformed_profile_body_rejects_witness :
    handlePendingSignInImpl envBadBody baseSession "t" =
      (.error .parseError, baseSession) :=
  (C9_malformed_profile_body_rejects envBadBody baseSession "t" payloadNoProfile
    (some "pk") (some "ct") "https://profiles.example/alice.json" "[]"
    rfl rfl rfl rfl rfl rfl rfl).1

/-- C10: reading the current user before any successful commit (no `userData`
in the session) fails with `InvalidStateError` ("No user data found. Did the
user sign in?"); after a successful run of the processor it returns exactly
the committed `UserData` (and, being a pure function of the session, performs
no writes). -/
theorem C10_load_user_data :
    (∀ sd : SessionData, sd.userData = none →
      loadUserDataImpl sd = .error (.invalidState msgNoUserData)) ∧
    (∀ (env : Env) (sd : SessionData) (tok : String) (ud : UserData) (sd' : SessionData),
      handlePendingSignInImpl env sd tok = (.ok ud, sd') →
      loadUserDataImpl sd' = .ok ud) := by
  constructor
  · intro sd h
    unfold loadUserDataImpl
    rw [h]
  · intro env sd tok ud sd' h
    rw [handle_eq_stage] at h
    cases hpo : processOutcome env sd.transitKey (nameLookupURL sd) tok with
    | error e =>
      rw [hpo] at h
      simp at h
    | ok u =>
      rw [hpo] at h
      simp only [Prod.mk.injEq, Except.ok.injEq] at h
      obtain ⟨rfl, rfl⟩ := h
      rfl

/-- C10 witness: the fresh session fails the read; after a concrete
successful run the read returns the committed record. -/
theorem C10_load_user_data_witness :
    loadUserDataImpl baseSession = .error (.invalidState msgNoUserData) ∧
    loadUserDataImpl { baseSession with userData := some udBase } = .ok udBase :=
  ⟨C10_load_user_data.1 baseSession rfl,
   C10_load_user_data.2 baseEnv baseSession "t" udBase
     { baseSession with userData := some udBase } rfl⟩

end AuthApp
